import Mathlib

/-!
# zsck/patches: the vulnerability HTTP handler and the package data model

A shallow embedding of

* `pkg/pack/pack.go`: `Package` and `Package.Equals`;
* `internal/servers/servers.go`: `translatePlatform`, `ClairVulnServer.ServeHTTP`,
  `ClairVulnServer.__runJob` and `ClairVulnServer.__newJob`.

The handler is stateful: it talks to a response writer, a vulnerability source
and a job manager.  It is embedded with explicit state passing.  Every call the
handler makes on one of them is appended to a log carried by `Exec`, so that
"which calls, in which order, with which arguments" is a statement about a list.

The declarations that `servers.go` uses but does not contain (`VulnJobManager`
with `Register` and `Retrieve`, `NewFetchVulnsJob`, `vulnerability.Source`,
`platform.Platform`, `platform.Debian8`) are parameters, bundled in
`ClairVulnServer`.  Their results are arbitrary: every theorem about the handler
holds for all of them.
-/

namespace Patches

/-! ## `pkg/pack/pack.go` -/

namespace pack

/-- A software package that may be installed on a host (`pack.go`, lines 14-18). -/
structure Package where
  Name : String
  Version : String
  deriving DecidableEq, Repr

/-- Line 30-32 of `pack.go`:
`return pkg.Name == other.Name && pkg.Version == other.Version`. -/
def Package.Equals (pkg other : Package) : Bool :=
  pkg.Name == other.Name && pkg.Version == other.Version

end pack

/-! ## `internal/servers/servers.go` -/

namespace servers

/-- A Go slice value: either the `nil` slice or a slice with the listed elements.
The two are kept apart because `encoding/json` writes them differently
(`null` against `[]`); both have length 0 when there is no element. -/
inductive Slice (α : Type) where
  | nil : Slice α
  | of (elems : List α) : Slice α
  deriving DecidableEq, Repr

/-- Go `len(s)`. -/
def Slice.len {α : Type} : Slice α → Nat
  | Slice.nil => 0
  | Slice.of xs => xs.length

/-- The elements a `for _, x := range s` loop visits, in order. -/
def Slice.range {α : Type} : Slice α → List α
  | Slice.nil => []
  | Slice.of xs => xs

/-- Go `xs[0]` on a `[]string`: `none` stands for the index-out-of-range panic. -/
def index0 {α : Type} (xs : List α) : Option α :=
  xs[0]?

/-- `url.Values`, a `map[string][]string`, as an association list read at the first
entry with the key. -/
abbrev Values := List (String × List String)

/-- Go `v, found := m[key]` on a `url.Values`: the zero value and `false` when the key
is absent. -/
def mapIndex (m : Values) (key : String) : List String × Bool :=
  match m.lookup key with
  | some v => (v, true)
  | none => ([], false)

/-- The part of `*http.Request` the handler reads: the parsed query, `req.URL.Query()`. -/
structure Request where
  Query : Values
  deriving DecidableEq, Repr

/-- The record `vulnsResponse` (lines 21-26).  `Error` is a `*string`, `none` being
the nil pointer, which is encoded as JSON `null`; `Finished` has the boolean type
`complete`.  The defaults are Go zero values, as in a composite literal that leaves
fields out. -/
structure vulnsResponse (V : Type) where
  Error : Option String := none
  RequestID : String := ""
  Finished : Bool := false
  Vulnerabilities : Slice V := Slice.nil
  deriving DecidableEq, Repr

/-- What the handler does to its `http.ResponseWriter`, in order. -/
inductive ResEvent (V : Type) where
  | setHeader (key value : String) : ResEvent V
  | writeHeader (code : Nat) : ResEvent V
  | encode (body : vulnsResponse V) : ResEvent V
  deriving DecidableEq, Repr

/-- A call the handler makes on the vulnerability source or on the job manager. -/
inductive Call (P J : Type) where
  | fetch (pform : P) : Call P J
  | register (job : J) : Call P J
  | retrieve (id : String) : Call P J
  deriving DecidableEq, Repr

/-- The fields of `ClairVulnServer` (lines 16-19) together with the declarations of
the package that `servers.go` refers to.  `σ` is the state shared by the source and the
job manager, `P` is `platform.Platform`, `V` is `vulnerability.Vulnerability`, `E` is
the type of non-nil `error` values (a Go `error` is an `Option E`), `CV`, `CF`, `CE`
are the three channel types returned by the source and `J` is the job type. -/
structure ClairVulnServer (σ P V E CV CF CE J : Type) where
  /-- The call `server.source.Vulnerabilities(pform)`. -/
  Vulnerabilities : σ → P → (CV × CF × CE) × σ
  /-- The constructor `NewFetchVulnsJob(vulns, finished, errs)`. -/
  NewFetchVulnsJob : CV → CF → CE → J
  /-- The call `server.jobs.Register(job)`, returning `(jobID, err)`. -/
  Register : σ → J → (String × Option E) × σ
  /-- The call `server.jobs.Retrieve(id)`, returning `(vulns, errs, fin)`. -/
  Retrieve : σ → String → (Slice V × Slice (Option E) × Bool) × σ
  /-- The constant `platform.Debian8`. -/
  Debian8 : P
  /-- The zero value `platform.Platform{}`. -/
  zeroPlatform : P

/-- The state threaded through the handler: the collaborators' state and the three
logs (response writer, collaborator calls, `log.Error`). -/
structure Exec (σ P V E J : Type) where
  world : σ
  res : List (ResEvent V)
  calls : List (Call P J)
  logged : List (Option E)
  deriving DecidableEq, Repr

variable {σ P V E CV CF CE J : Type}

/-- The state in which a request is served: nothing written, called or logged yet. -/
def Exec.start (w : σ) : Exec σ P V E J :=
  { world := w, res := [], calls := [], logged := [] }

/-- The call `res.Header().Set(key, value)`. -/
def Exec.SetHeader (x : Exec σ P V E J) (key value : String) : Exec σ P V E J :=
  { x with res := x.res ++ [ResEvent.setHeader key value] }

/-- The call `res.WriteHeader(code)`. -/
def Exec.WriteHeader (x : Exec σ P V E J) (code : Nat) : Exec σ P V E J :=
  { x with res := x.res ++ [ResEvent.writeHeader code] }

/-- The call `response.Encode(v)` on the encoder that writes to `res`. -/
def Exec.Encode (x : Exec σ P V E J) (v : vulnsResponse V) : Exec σ P V E J :=
  { x with res := x.res ++ [ResEvent.encode v] }

/-- The loop `for _, err := range errs { log.Error(err) }` (lines 92-94). -/
def Exec.logErrors (x : Exec σ P V E J) (errs : Slice (Option E)) : Exec σ P V E J :=
  { x with logged := x.logged ++ errs.range }

/-- The constant `http.StatusBadRequest`. -/
def StatusBadRequest : Nat := 400

/-- The status a `net/http` response ends with: the code of a `WriteHeader` that
comes before the first write of the body, else 200. -/
def statusCode : List (ResEvent V) → Nat
  | [] => 200
  | ResEvent.setHeader _ _ :: rest => statusCode rest
  | ResEvent.writeHeader code :: _ => code
  | ResEvent.encode _ :: _ => 200

/-- The codes of the `WriteHeader` calls made, in order. -/
def writeHeaderCalls : List (ResEvent V) → List Nat
  | [] => []
  | ResEvent.writeHeader code :: rest => code :: writeHeaderCalls rest
  | _ :: rest => writeHeaderCalls rest

/-- The values encoded into the body, in order. -/
def body : List (ResEvent V) → List (vulnsResponse V)
  | [] => []
  | ResEvent.encode v :: rest => v :: body rest
  | _ :: rest => body rest

/-- The map literal `supported` of `translatePlatform` (lines 40-42). -/
def supported (server : ClairVulnServer σ P V E CV CF CE J) : List (String × P) :=
  [("debian 8", server.Debian8)]

/-- Lines 39-50 of `servers.go`: look the name up in `supported`. -/
def translatePlatform (server : ClairVulnServer σ P V E CV CF CE J) (name : String) :
    P × Bool :=
  match (supported server).lookup name with
  | none => (server.zeroPlatform, false)
  | some pform => (pform, true)

/-- Lines 113-120 of `servers.go`: one `Retrieve`, its three results passed on. -/
def __runJob (server : ClairVulnServer σ P V E CV CF CE J) (x : Exec σ P V E J)
    (id : String) : (Slice V × Slice (Option E) × Bool) × Exec σ P V E J :=
  let r := server.Retrieve x.world id
  let x1 : Exec σ P V E J := { x with world := r.2, calls := x.calls ++ [Call.retrieve id] }
  ((r.1.1, r.1.2.1, r.1.2.2), x1)

/-- Lines 122-136 of `servers.go`: start the fetch, register a job built from its
channels, and on success retrieve that job once, dropping the completion flag. -/
def __newJob (server : ClairVulnServer σ P V E CV CF CE J) (x : Exec σ P V E J)
    (pform : P) : (String × Slice V × Slice (Option E)) × Exec σ P V E J :=
  let f := server.Vulnerabilities x.world pform
  let x1 : Exec σ P V E J := { x with world := f.2, calls := x.calls ++ [Call.fetch pform] }
  let job := server.NewFetchVulnsJob f.1.1 f.1.2.1 f.1.2.2
  let g := server.Register x1.world job
  let x2 : Exec σ P V E J := { x1 with world := g.2, calls := x1.calls ++ [Call.register job] }
  match g.1.2 with
  | some err => (("", Slice.of [], Slice.of [some err]), x2)
  | none =>
    let r := server.Retrieve x2.world g.1.1
    let x3 : Exec σ P V E J :=
      { x2 with world := r.2, calls := x2.calls ++ [Call.retrieve g.1.1] }
    ((g.1.1, r.1.1, r.1.2.1), x3)

/-- Lines 52-111 of `servers.go`.  The result is `none` when the handler panics on an
index out of range. -/
def ServeHTTP (server : ClairVulnServer σ P V E CV CF CE J) (w : σ) (req : Request) :
    Option (Exec σ P V E J) :=
  let x : Exec σ P V E J := (Exec.start w).SetHeader "Content-Type" "application/json"
  let qs := req.Query
  let platforms := mapIndex qs "platform"
  if !platforms.2 || platforms.1.length == 0 then
    let x := x.WriteHeader StatusBadRequest
    let errMsg := "missing query parameter 'platform'"
    some (x.Encode { Error := some errMsg })
  else
    (index0 platforms.1).bind fun name =>
    let t := translatePlatform server name
    if !t.2 then
      let x := x.WriteHeader StatusBadRequest
      (index0 platforms.1).bind fun shown =>
      let errMsg := "no such platform '" ++ shown ++ "'"
      some (x.Encode { Error := some errMsg })
    else
      let requestIDs := mapIndex qs "requestID"
      let run : Option ((String × Slice V × Slice (Option E) × Bool) × Exec σ P V E J) :=
        if requestIDs.2 && requestIDs.1.length > 0 then
          (index0 requestIDs.1).bind fun requestID =>
          let r := __runJob server x requestID
          some ((requestID, r.1.1, r.1.2.1, r.1.2.2), r.2)
        else
          let r := __newJob server x t.1
          some ((r.1.1, r.1.2.1, r.1.2.2, false), r.2)
      run.bind fun out =>
      let requestID := out.1.1
      let vulns := out.1.2.1
      let errs := out.1.2.2.1
      let fin := out.1.2.2.2
      let x := out.2.logErrors errs
      if errs.len > 0 then
        let x := x.WriteHeader StatusBadRequest
        let errMsg := "invalid request id"
        some (x.Encode { Error := some errMsg })
      else
        some (x.Encode { Vulnerabilities := vulns, RequestID := requestID, Finished := fin })

/-! ### Names for the values the theorems speak about -/

/-- The header line every response starts with. -/
def contentType : ResEvent V :=
  ResEvent.setHeader "Content-Type" "application/json"

/-- The failure response with the given message: status 400 and only `error` set. -/
def failure (msg : String) : List (ResEvent V) :=
  [contentType, ResEvent.writeHeader 400, ResEvent.encode { Error := some msg }]

/-- The job `__newJob` registers when serving a request in state `w`. -/
def jobOf (server : ClairVulnServer σ P V E CV CF CE J) (w : σ) (pform : P) : J :=
  server.NewFetchVulnsJob (server.Vulnerabilities w pform).1.1
    (server.Vulnerabilities w pform).1.2.1 (server.Vulnerabilities w pform).1.2.2

/-- The result of the `Register` call `__newJob` makes when serving a request in state
`w`: the fetch is started first, the job is registered in the state the fetch leaves. -/
def registered (server : ClairVulnServer σ P V E CV CF CE J) (w : σ) (pform : P) :
    (String × Option E) × σ :=
  server.Register (server.Vulnerabilities w pform).2 (jobOf server w pform)

/-- The result of the `Retrieve` call `__newJob` makes after a successful `Register`. -/
def retrieved (server : ClairVulnServer σ P V E CV CF CE J) (w : σ) (pform : P) :
    (Slice V × Slice (Option E) × Bool) × σ :=
  server.Retrieve (registered server w pform).2 (registered server w pform).1.1

/-! ### A small source and job manager

A concrete source and job manager, used to run the handler on concrete requests.
The job manager keeps its jobs in an association list; the identifier generator is a
list of identifiers still to hand out, and generation fails when it is empty. -/

namespace stub

/-- A job: what has been collected from the fetch so far. -/
structure Job where
  collected : List String
  collectedErrors : List String
  done : Bool
  deriving DecidableEq, Repr

/-- State of the source and of the job manager. -/
structure World where
  /-- What a fetch started now has ready: records, completion, errors. -/
  ready : List String × Bool × List String
  /-- Identifiers the generator still hands out. -/
  ids : List String
  /-- The registered jobs. -/
  jobs : List (String × Job)
  deriving DecidableEq, Repr

/-- The source: a fetch hands over what is ready. -/
def Vulnerabilities (w : World) (_pform : String) :
    (List String × Bool × List String) × World :=
  (w.ready, w)

/-- The job constructor. -/
def NewFetchVulnsJob (vulns : List String) (finished : Bool) (errs : List String) : Job :=
  { collected := vulns, collectedErrors := errs, done := finished }

/-- Registration as §4.3 of the specification describes it: the job becomes visible
under a fresh identifier; it fails when no identifier can be generated. -/
def Register (w : World) (job : Job) : (String × Option String) × World :=
  match w.ids with
  | [] => (("", some "could not generate an identifier"), w)
  | id :: rest => ((id, none), { w with ids := rest, jobs := (id, job) :: w.jobs })

/-- Retrieval as §4.4 of the specification describes it: the snapshot of a known job
(records, errors, completion flag); for an unknown identifier the not-found error, in
the error list. -/
def Retrieve (w : World) (id : String) :
    (Slice String × Slice (Option String) × Bool) × World :=
  match w.jobs.lookup id with
  | some job => ((Slice.of job.collected, Slice.of (job.collectedErrors.map some), job.done), w)
  | none => ((Slice.nil, Slice.of [some "no such job"], false), w)

/-- The server built from the source and job manager above. -/
def server :
    ClairVulnServer World String String String (List String) Bool (List String) Job :=
  { Vulnerabilities := Vulnerabilities
    NewFetchVulnsJob := NewFetchVulnsJob
    Register := Register
    Retrieve := Retrieve
    Debian8 := "Debian 8 (jessie)"
    zeroPlatform := "" }

/-- A job manager holding job "x", which collected `A`, `B` and is complete. -/
def worldDone : World :=
  { ready := ([], false, [])
    ids := ["y"]
    jobs := [("x", { collected := ["A", "B"], collectedErrors := [], done := true })] }

/-- A job manager holding job "x", which collected `A`, `B`, the fetch-level error `E`
and the completion signal. -/
def worldPartial : World :=
  { ready := ([], false, [])
    ids := ["y"]
    jobs := [("x", { collected := ["A", "B"], collectedErrors := ["E"], done := true })] }

/-- An empty job manager and a source whose fetch has `A`, `B` and the completion
signal ready at once. -/
def worldFresh : World :=
  { ready := (["A", "B"], true, [])
    ids := ["x"]
    jobs := [] }

/-- An empty job manager whose identifier generator is exhausted. -/
def worldExhausted : World :=
  { ready := (["A"], false, [])
    ids := []
    jobs := [] }

/-- The request `?platform=debian 8&requestID=id`. -/
def poll (id : String) : Request :=
  { Query := [("platform", ["debian 8"]), ("requestID", [id])] }

/-- The request `?platform=debian 8`. -/
def fresh : Request :=
  { Query := [("platform", ["debian 8"])] }

end stub

/-! ## Properties

### Auxiliary facts about the handler -/

theorem mapIndex_of_some {m : Values} {key : String} {v : List String}
    (h : m.lookup key = some v) : mapIndex m key = (v, true) := by
  simp [mapIndex, h]

theorem mapIndex_of_none {m : Values} {key : String}
    (h : m.lookup key = none) : mapIndex m key = ([], false) := by
  simp [mapIndex, h]

/-- The only supported platform name is "debian 8". -/
theorem translatePlatform_found_iff (server : ClairVulnServer σ P V E CV CF CE J)
    (name : String) : (translatePlatform server name).2 = true ↔ name = "debian 8" := by
  unfold translatePlatform supported
  by_cases h : name = "debian 8"
  · subst h
    simp [List.lookup]
  · have hb : (name == "debian 8") = false := by simpa using h
    simp [List.lookup, hb, h]

theorem statusCode_failure (msg : String) :
    statusCode (failure msg : List (ResEvent V)) = 400 := by
  simp [failure, contentType, statusCode]

theorem writeHeaderCalls_failure (msg : String) :
    writeHeaderCalls (failure msg : List (ResEvent V)) = [400] := by
  simp [failure, contentType, writeHeaderCalls]

theorem body_failure (msg : String) :
    body (failure msg : List (ResEvent V)) = [{ Error := some msg }] := by
  simp [failure, contentType, body]

/-- The handler on a request without a usable `platform` parameter. -/
theorem ServeHTTP_of_no_platform (server : ClairVulnServer σ P V E CV CF CE J) (w : σ)
    (req : Request)
    (h : req.Query.lookup "platform" = none ∨ req.Query.lookup "platform" = some []) :
    ServeHTTP server w req =
      some { world := w, res := failure "missing query parameter 'platform'",
             calls := [], logged := [] } := by
  rcases h with h | h <;>
    simp [ServeHTTP, mapIndex, h, failure, contentType, Exec.start, Exec.SetHeader,
      Exec.WriteHeader, Exec.Encode, StatusBadRequest]

/-- The handler on a request whose first `platform` value is not supported. -/
theorem ServeHTTP_of_unsupported (server : ClairVulnServer σ P V E CV CF CE J) (w : σ)
    (req : Request) (name : String) (more : List String)
    (hp : req.Query.lookup "platform" = some (name :: more))
    (hs : (translatePlatform server name).2 = false) :
    ServeHTTP server w req =
      some { world := w, res := failure ("no such platform '" ++ name ++ "'"),
             calls := [], logged := [] } := by
  simp [ServeHTTP, mapIndex, hp, hs, index0, failure, contentType, Exec.start,
    Exec.SetHeader, Exec.WriteHeader, Exec.Encode, StatusBadRequest]

/-- The handler on a poll: supported platform and a `requestID` value. -/
theorem ServeHTTP_of_poll (server : ClairVulnServer σ P V E CV CF CE J) (w : σ)
    (req : Request) (name : String) (more : List String) (id : String) (ids : List String)
    (hp : req.Query.lookup "platform" = some (name :: more))
    (hs : (translatePlatform server name).2 = true)
    (hid : req.Query.lookup "requestID" = some (id :: ids)) :
    ServeHTTP server w req =
      some { world := (server.Retrieve w id).2,
             res :=
               if 0 < (server.Retrieve w id).1.2.1.len then failure "invalid request id"
               else [contentType, ResEvent.encode
                      { Vulnerabilities := (server.Retrieve w id).1.1, RequestID := id,
                        Finished := (server.Retrieve w id).1.2.2 }],
             calls := [Call.retrieve id],
             logged := (server.Retrieve w id).1.2.1.range } := by
  by_cases hl : 0 < (server.Retrieve w id).1.2.1.len <;>
    simp [ServeHTTP, mapIndex, hp, hs, hid, hl, index0, __runJob, failure, contentType,
      Exec.start, Exec.SetHeader, Exec.WriteHeader, Exec.Encode, Exec.logErrors,
      StatusBadRequest]

/-- What `__newJob` returns, and the calls it makes, when `Register` fails. -/
theorem newJob_of_register_failed (server : ClairVulnServer σ P V E CV CF CE J)
    (x : Exec σ P V E J) (pform : P) (e : E)
    (hreg : (server.Register (server.Vulnerabilities x.world pform).2
      (server.NewFetchVulnsJob (server.Vulnerabilities x.world pform).1.1
        (server.Vulnerabilities x.world pform).1.2.1
        (server.Vulnerabilities x.world pform).1.2.2)).1.2 = some e) :
    __newJob server x pform =
      (("", Slice.of [], Slice.of [some e]),
       { x with
         world := (server.Register (server.Vulnerabilities x.world pform).2
           (server.NewFetchVulnsJob (server.Vulnerabilities x.world pform).1.1
             (server.Vulnerabilities x.world pform).1.2.1
             (server.Vulnerabilities x.world pform).1.2.2)).2,
         calls := x.calls ++ [Call.fetch pform, Call.register
           (server.NewFetchVulnsJob (server.Vulnerabilities x.world pform).1.1
             (server.Vulnerabilities x.world pform).1.2.1
             (server.Vulnerabilities x.world pform).1.2.2)] }) := by
  simp [__newJob, hreg]

/-- The handler on a new-job request whose registration fails. -/
theorem ServeHTTP_of_new_failed (server : ClairVulnServer σ P V E CV CF CE J) (w : σ)
    (req : Request) (name : String) (more : List String) (e : E)
    (hp : req.Query.lookup "platform" = some (name :: more))
    (hs : (translatePlatform server name).2 = true)
    (hid : req.Query.lookup "requestID" = none ∨ req.Query.lookup "requestID" = some [])
    (hreg : (registered server w (translatePlatform server name).1).1.2 = some e) :
    ServeHTTP server w req =
      some { world := (registered server w (translatePlatform server name).1).2,
             res := failure "invalid request id",
             calls := [Call.fetch (translatePlatform server name).1,
                       Call.register (jobOf server w (translatePlatform server name).1)],
             logged := [some e] } := by
  unfold registered jobOf at hreg
  rcases hid with hid | hid <;>
    simp [ServeHTTP, mapIndex, hp, hs, hid, hreg, index0, __newJob, failure, contentType,
      Exec.start, Exec.SetHeader, Exec.WriteHeader, Exec.Encode, Exec.logErrors,
      StatusBadRequest, Slice.len, Slice.range, registered, jobOf]

/-- The handler on a new-job request whose registration succeeds. -/
theorem ServeHTTP_of_new_registered (server : ClairVulnServer σ P V E CV CF CE J) (w : σ)
    (req : Request) (name : String) (more : List String)
    (hp : req.Query.lookup "platform" = some (name :: more))
    (hs : (translatePlatform server name).2 = true)
    (hid : req.Query.lookup "requestID" = none ∨ req.Query.lookup "requestID" = some [])
    (hreg : (registered server w (translatePlatform server name).1).1.2 = none) :
    ServeHTTP server w req =
      some { world := (retrieved server w (translatePlatform server name).1).2,
             res :=
               if 0 < (retrieved server w (translatePlatform server name).1).1.2.1.len then
                 failure "invalid request id"
               else [contentType, ResEvent.encode
                 { Vulnerabilities := (retrieved server w (translatePlatform server name).1).1.1,
                   RequestID := (registered server w (translatePlatform server name).1).1.1,
                   Finished := false }],
             calls := [Call.fetch (translatePlatform server name).1,
                       Call.register (jobOf server w (translatePlatform server name).1),
                       Call.retrieve (registered server w (translatePlatform server name).1).1.1],
             logged := (retrieved server w (translatePlatform server name).1).1.2.1.range } := by
  unfold registered jobOf at hreg
  by_cases hl : 0 < (retrieved server w (translatePlatform server name).1).1.2.1.len <;>
  rcases hid with hid | hid <;>
    (unfold retrieved registered jobOf at hl
     simp [ServeHTTP, mapIndex, hp, hs, hid, hreg, hl, index0, __newJob, failure, contentType,
      Exec.start, Exec.SetHeader, Exec.WriteHeader, Exec.Encode, Exec.logErrors,
      StatusBadRequest, retrieved, registered, jobOf])

/-! ### The claims about `ServeHTTP` -/

/-- C1: a request with a supported platform and a `requestID` whose first value is
unknown to the job manager (the error list `Retrieve` returns holds the not-found
error) is served without a panic, with status 400 and the body
`{error: "invalid request id", requestID: "", finished: false, vulns: null}`; the only
call made is that `Retrieve`, so no fetch is started and `Register` is not called. -/
theorem C1_unknown_id_invalid_request_id (server : ClairVulnServer σ P V E CV CF CE J)
    (w : σ) (req : Request) (name : String) (more : List String) (id : String)
    (ids : List String) (notFound : E)
    (hp : req.Query.lookup "platform" = some (name :: more))
    (hs : (translatePlatform server name).2 = true)
    (hid : req.Query.lookup "requestID" = some (id :: ids))
    (hnf : some notFound ∈ (server.Retrieve w id).1.2.1.range) :
    ∃ x : Exec σ P V E J, ServeHTTP server w req = some x ∧
      statusCode x.res = 400 ∧
      body x.res = [{ Error := some "invalid request id", RequestID := "",
                      Finished := false, Vulnerabilities := Slice.nil }] ∧
      x.calls = [Call.retrieve id] ∧
      (∀ pform, Call.fetch pform ∉ x.calls) ∧ (∀ job, Call.register job ∉ x.calls) := by
  have hl : 0 < (server.Retrieve w id).1.2.1.len := by
    cases hr : (server.Retrieve w id).1.2.1 with
    | nil => simp [hr, Slice.range] at hnf
    | of xs =>
      rw [hr] at hnf
      exact List.length_pos_of_mem hnf
  refine ⟨_, ServeHTTP_of_poll server w req name more id ids hp hs hid, ?_⟩
  simp [hl, statusCode_failure, body_failure]

/-- C1 at a poll of the identifier "missing-id", which the job manager does not hold. -/
theorem C1_unknown_id_invalid_request_id_witness :
    (stub.poll "missing-id").Query.lookup "platform" = some ("debian 8" :: []) ∧
    (translatePlatform stub.server "debian 8").2 = true ∧
    (stub.poll "missing-id").Query.lookup "requestID" = some ("missing-id" :: []) ∧
    some "no such job" ∈ (stub.server.Retrieve stub.worldDone "missing-id").1.2.1.range ∧
    ∃ x : Exec stub.World String String String stub.Job,
      ServeHTTP stub.server stub.worldDone (stub.poll "missing-id") = some x ∧
      statusCode x.res = 400 ∧
      body x.res = [{ Error := some "invalid request id", RequestID := "",
                      Finished := false, Vulnerabilities := Slice.nil }] ∧
      x.calls = [Call.retrieve "missing-id"] ∧
      (∀ pform, Call.fetch pform ∉ x.calls) ∧ (∀ job, Call.register job ∉ x.calls) :=
  ⟨by decide, by decide, by decide, by decide,
   C1_unknown_id_invalid_request_id stub.server stub.worldDone (stub.poll "missing-id")
     "debian 8" [] "missing-id" [] "no such job" (by decide) (by decide) (by decide)
     (by decide)⟩

/-- C2, as stated, fails: job "x" is known and `Retrieve` returns the records `A`, `B`
together with the fetch-level error `E`; the poll is answered with status 400 and a
body that carries no record, no identifier and no completion flag. -/
theorem C2_fetch_error_counterexample :
    (stub.poll "x").Query.lookup "platform" = some ("debian 8" :: []) ∧
    (translatePlatform stub.server "debian 8").2 = true ∧
    (stub.poll "x").Query.lookup "requestID" = some ("x" :: []) ∧
    stub.server.Retrieve stub.worldPartial "x" =
      ((Slice.of ["A", "B"], Slice.of [some "E"], true), stub.worldPartial) ∧
    ServeHTTP stub.server stub.worldPartial (stub.poll "x") =
      some { world := stub.worldPartial, res := failure "invalid request id",
             calls := [Call.retrieve "x"], logged := [some "E"] } ∧
    ¬ ∃ x : Exec stub.World String String String stub.Job,
      ServeHTTP stub.server stub.worldPartial (stub.poll "x") = some x ∧
      ∃ r ∈ body x.res, r.Vulnerabilities = Slice.of ["A", "B"] ∧ r.RequestID = "x" ∧
        r.Finished = true := by
  have h : ServeHTTP stub.server stub.worldPartial (stub.poll "x") =
      some { world := stub.worldPartial, res := failure "invalid request id",
             calls := [Call.retrieve "x"], logged := [some "E"] } := by decide
  refine ⟨by decide, by decide, by decide, by decide, h, ?_⟩
  rintro ⟨x, hx, r, hr, hv, -, -⟩
  rw [h] at hx
  cases hx
  simp [body_failure] at hr
  subst hr
  simp at hv

/-- C2, amended: on a poll (supported platform, `requestID` present) for which
`Retrieve` returns one or more errors, of whatever kind and whatever records come with
them, the handler logs those errors and answers with status 400 and a body with a
non-null error in which the identifier is empty, the completion flag false and the
record list null; `Retrieve` is the only call made. -/
theorem C2_poll_with_errors_rejected (server : ClairVulnServer σ P V E CV CF CE J)
    (w : σ) (req : Request) (name : String) (more : List String) (id : String)
    (ids : List String)
    (hp : req.Query.lookup "platform" = some (name :: more))
    (hs : (translatePlatform server name).2 = true)
    (hid : req.Query.lookup "requestID" = some (id :: ids))
    (herr : 0 < (server.Retrieve w id).1.2.1.len) :
    ∃ x : Exec σ P V E J, ServeHTTP server w req = some x ∧
      statusCode x.res = 400 ∧
      (∃ msg, body x.res = [{ Error := some msg, RequestID := "", Finished := false,
                              Vulnerabilities := Slice.nil }]) ∧
      x.logged = (server.Retrieve w id).1.2.1.range ∧
      x.calls = [Call.retrieve id] := by
  refine ⟨_, ServeHTTP_of_poll server w req name more id ids hp hs hid, ?_⟩
  simp [herr, statusCode_failure, body_failure]

/-- The amended C2 at a poll of job "x", which holds `A`, `B` and the error `E`. -/
theorem C2_poll_with_errors_rejected_witness :
    0 < (stub.server.Retrieve stub.worldPartial "x").1.2.1.len ∧
    ∃ x : Exec stub.World String String String stub.Job,
      ServeHTTP stub.server stub.worldPartial (stub.poll "x") = some x ∧
      statusCode x.res = 400 ∧
      (∃ msg, body x.res = [{ Error := some msg, RequestID := "", Finished := false,
                              Vulnerabilities := Slice.nil }]) ∧
      x.logged = (stub.server.Retrieve stub.worldPartial "x").1.2.1.range ∧
      x.calls = [Call.retrieve "x"] :=
  ⟨by decide,
   C2_poll_with_errors_rejected stub.server stub.worldPartial (stub.poll "x") "debian 8" []
     "x" [] (by decide) (by decide) (by decide) (by decide)⟩

/-- C3, as stated, fails on the new-job path: the source has `A`, `B` and the completion
signal ready, `Register` returns "x" without error and the `Retrieve` made while serving
the request returns the completion flag `true` and no error; the request is answered
successfully with `finished` equal to `false`. -/
theorem C3_new_job_flag_counterexample :
    stub.fresh.Query.lookup "platform" = some ("debian 8" :: []) ∧
    (translatePlatform stub.server "debian 8").2 = true ∧
    stub.fresh.Query.lookup "requestID" = none ∧
    (registered stub.server stub.worldFresh (translatePlatform stub.server "debian 8").1).1
      = ("x", none) ∧
    (retrieved stub.server stub.worldFresh (translatePlatform stub.server "debian 8").1).1
      = (Slice.of ["A", "B"], Slice.of [], true) ∧
    (ServeHTTP stub.server stub.worldFresh stub.fresh).map (fun x => (x.res, x.calls)) =
      some ([contentType, ResEvent.encode
              { Error := none, RequestID := "x", Finished := false,
                Vulnerabilities := Slice.of ["A", "B"] }],
            [Call.fetch "Debian 8 (jessie)",
             Call.register { collected := ["A", "B"], collectedErrors := [], done := true },
             Call.retrieve "x"]) ∧
    ¬ ∃ x : Exec stub.World String String String stub.Job,
      ServeHTTP stub.server stub.worldFresh stub.fresh = some x ∧
      ∃ r ∈ body x.res, r.Finished =
        (retrieved stub.server stub.worldFresh
          (translatePlatform stub.server "debian 8").1).1.2.2 := by
  refine ⟨by decide, by decide, by decide, by decide, by decide, by decide, ?_⟩
  rintro ⟨x, hx, r, hr, hf⟩
  have h : ServeHTTP stub.server stub.worldFresh stub.fresh =
      some { world := { ready := (["A", "B"], true, []), ids := [],
                        jobs := [("x", { collected := ["A", "B"], collectedErrors := [],
                                         done := true })] },
             res := [contentType, ResEvent.encode
                      { Error := none, RequestID := "x", Finished := false,
                        Vulnerabilities := Slice.of ["A", "B"] }],
             calls := [Call.fetch "Debian 8 (jessie)",
                       Call.register
                         { collected := ["A", "B"], collectedErrors := [], done := true },
                       Call.retrieve "x"],
             logged := [] } := by decide
  rw [h] at hx
  cases hx
  have hflag : (retrieved stub.server stub.worldFresh
      (translatePlatform stub.server "debian 8").1).1.2.2 = true := by decide
  rw [hflag] at hf
  simp [body, contentType] at hr
  subst hr
  simp at hf

/-- C3, amended: on a request answered successfully, `finished` equals the completion
flag returned by the `Retrieve` call when the request polls an existing identifier
(`__runJob`); when the request creates a new job (`__newJob`), the flag returned by
`Retrieve` is dropped and `finished` is `false`. -/
theorem C3_finished_flag (server : ClairVulnServer σ P V E CV CF CE J) (w : σ)
    (req : Request) (name : String) (more : List String)
    (hp : req.Query.lookup "platform" = some (name :: more))
    (hs : (translatePlatform server name).2 = true) :
    (∀ id ids, req.Query.lookup "requestID" = some (id :: ids) →
      (server.Retrieve w id).1.2.1.len = 0 →
      ∃ x : Exec σ P V E J, ServeHTTP server w req = some x ∧
        ∃ r, body x.res = [r] ∧ r.Finished = (server.Retrieve w id).1.2.2) ∧
    ((req.Query.lookup "requestID" = none ∨ req.Query.lookup "requestID" = some []) →
      (registered server w (translatePlatform server name).1).1.2 = none →
      (retrieved server w (translatePlatform server name).1).1.2.1.len = 0 →
      ∃ x : Exec σ P V E J, ServeHTTP server w req = some x ∧
        ∃ r, body x.res = [r] ∧ r.Finished = false) := by
  constructor
  · intro id ids hid hl
    refine ⟨_, ServeHTTP_of_poll server w req name more id ids hp hs hid, ?_⟩
    simp [hl, body, contentType]
  · intro hid hreg hl
    refine ⟨_, ServeHTTP_of_new_registered server w req name more hp hs hid hreg, ?_⟩
    simp [hl, body, contentType]

/-- The amended C3 at a poll of the complete job "x" and at a new job that is complete
at once. -/
theorem C3_finished_flag_witness :
    (∃ x : Exec stub.World String String String stub.Job,
      ServeHTTP stub.server stub.worldDone (stub.poll "x") = some x ∧
        ∃ r, body x.res = [r] ∧
          r.Finished = (stub.server.Retrieve stub.worldDone "x").1.2.2) ∧
    (∃ x : Exec stub.World String String String stub.Job,
      ServeHTTP stub.server stub.worldFresh stub.fresh = some x ∧
        ∃ r, body x.res = [r] ∧ r.Finished = false) :=
  ⟨(C3_finished_flag stub.server stub.worldDone (stub.poll "x") "debian 8" []
      (by decide) (by decide)).1 "x" [] (by decide) (by decide),
   (C3_finished_flag stub.server stub.worldFresh stub.fresh "debian 8" []
      (by decide) (by decide)).2 (Or.inl (by decide)) (by decide) (by decide)⟩

/-- C4: on a request with a supported platform, if `requestID` is present with at
least one value (the empty string included) the calls made are exactly one `Retrieve`
with the first value; otherwise they are, in this order, one fetch for the translated
platform, one `Register` of the job built from the three channels of that fetch and,
only if `Register` returned no error, one `Retrieve` with the identifier `Register`
returned. -/
theorem C4_calls (server : ClairVulnServer σ P V E CV CF CE J) (w : σ)
    (req : Request) (name : String) (more : List String)
    (hp : req.Query.lookup "platform" = some (name :: more))
    (hs : (translatePlatform server name).2 = true) :
    (∀ id ids, req.Query.lookup "requestID" = some (id :: ids) →
      ∃ x : Exec σ P V E J, ServeHTTP server w req = some x ∧
        x.calls = [Call.retrieve id]) ∧
    ((req.Query.lookup "requestID" = none ∨ req.Query.lookup "requestID" = some []) →
      ∃ x : Exec σ P V E J, ServeHTTP server w req = some x ∧
        x.calls =
          Call.fetch (translatePlatform server name).1 ::
          Call.register
            (server.NewFetchVulnsJob
              (server.Vulnerabilities w (translatePlatform server name).1).1.1
              (server.Vulnerabilities w (translatePlatform server name).1).1.2.1
              (server.Vulnerabilities w (translatePlatform server name).1).1.2.2) ::
          (match (registered server w (translatePlatform server name).1).1.2 with
           | none => [Call.retrieve (registered server w (translatePlatform server name).1).1.1]
           | some _ => [])) := by
  constructor
  · intro id ids hid
    exact ⟨_, ServeHTTP_of_poll server w req name more id ids hp hs hid, rfl⟩
  · intro hid
    cases hreg : (registered server w (translatePlatform server name).1).1.2 with
    | none =>
      exact ⟨_, ServeHTTP_of_new_registered server w req name more hp hs hid hreg, rfl⟩
    | some e =>
      exact ⟨_, ServeHTTP_of_new_failed server w req name more e hp hs hid hreg, rfl⟩

/-- C4 at a poll with the empty identifier and at a new-job request. -/
theorem C4_calls_witness :
    (∃ x : Exec stub.World String String String stub.Job,
      ServeHTTP stub.server stub.worldDone (stub.poll "") = some x ∧
        x.calls = [Call.retrieve ""]) ∧
    (∃ x : Exec stub.World String String String stub.Job,
      ServeHTTP stub.server stub.worldFresh stub.fresh = some x ∧
        x.calls =
          [Call.fetch "Debian 8 (jessie)",
           Call.register { collected := ["A", "B"], collectedErrors := [], done := true },
           Call.retrieve "x"]) :=
  ⟨(C4_calls stub.server stub.worldDone (stub.poll "") "debian 8" []
      (by decide) (by decide)).1 "" [] (by decide),
   (C4_calls stub.server stub.worldFresh stub.fresh "debian 8" []
      (by decide) (by decide)).2 (Or.inl (by decide))⟩

/-- C5: on a request with a supported platform for which the job operations report no
error, `WriteHeader` is never called, the status is 200, and the body is one value with
a null error, the identifier of the job (the first `requestID` value on a poll, the
identifier returned by `Register` on a new job) and, as `vulns`, exactly the sequence
returned by `Retrieve` for that identifier. -/
theorem C5_success_response (server : ClairVulnServer σ P V E CV CF CE J) (w : σ)
    (req : Request) (name : String) (more : List String)
    (hp : req.Query.lookup "platform" = some (name :: more))
    (hs : (translatePlatform server name).2 = true) :
    (∀ id ids, req.Query.lookup "requestID" = some (id :: ids) →
      (server.Retrieve w id).1.2.1.len = 0 →
      ∃ x : Exec σ P V E J, ServeHTTP server w req = some x ∧
        writeHeaderCalls x.res = [] ∧ statusCode x.res = 200 ∧
        ∃ r, body x.res = [r] ∧ r.Error = none ∧ r.RequestID = id ∧
          r.Vulnerabilities = (server.Retrieve w id).1.1) ∧
    ((req.Query.lookup "requestID" = none ∨ req.Query.lookup "requestID" = some []) →
      (registered server w (translatePlatform server name).1).1.2 = none →
      (retrieved server w (translatePlatform server name).1).1.2.1.len = 0 →
      ∃ x : Exec σ P V E J, ServeHTTP server w req = some x ∧
        writeHeaderCalls x.res = [] ∧ statusCode x.res = 200 ∧
        ∃ r, body x.res = [r] ∧ r.Error = none ∧
          r.RequestID = (registered server w (translatePlatform server name).1).1.1 ∧
          r.Vulnerabilities =
            (server.Retrieve (registered server w (translatePlatform server name).1).2
              (registered server w (translatePlatform server name).1).1.1).1.1) := by
  constructor
  · intro id ids hid hl
    refine ⟨_, ServeHTTP_of_poll server w req name more id ids hp hs hid, ?_⟩
    simp [hl, body, statusCode, writeHeaderCalls, contentType]
  · intro hid hreg hl
    refine ⟨_, ServeHTTP_of_new_registered server w req name more hp hs hid hreg, ?_⟩
    have hr : (retrieved server w (translatePlatform server name).1).1.1 =
        (server.Retrieve (registered server w (translatePlatform server name).1).2
          (registered server w (translatePlatform server name).1).1.1).1.1 := rfl
    simp [hl, hr, body, statusCode, writeHeaderCalls, contentType]

/-- C5 at a poll of job "x" and at a new job registered as "x". -/
theorem C5_success_response_witness :
    (∃ x : Exec stub.World String String String stub.Job,
      ServeHTTP stub.server stub.worldDone (stub.poll "x") = some x ∧
        writeHeaderCalls x.res = [] ∧ statusCode x.res = 200 ∧
        ∃ r, body x.res = [r] ∧ r.Error = none ∧ r.RequestID = "x" ∧
          r.Vulnerabilities = Slice.of ["A", "B"]) ∧
    (∃ x : Exec stub.World String String String stub.Job,
      ServeHTTP stub.server stub.worldFresh stub.fresh = some x ∧
        writeHeaderCalls x.res = [] ∧ statusCode x.res = 200 ∧
        ∃ r, body x.res = [r] ∧ r.Error = none ∧ r.RequestID = "x" ∧
          r.Vulnerabilities = Slice.of ["A", "B"]) :=
  ⟨(C5_success_response stub.server stub.worldDone (stub.poll "x") "debian 8" []
      (by decide) (by decide)).1 "x" [] (by decide) (by decide),
   (C5_success_response stub.server stub.worldFresh stub.fresh "debian 8" []
      (by decide) (by decide)).2 (Or.inl (by decide)) (by decide) (by decide)⟩

/-- C6: on a new-job request (supported platform, no `requestID`) in which `Register`
fails with the error `e`, `__newJob` returns the empty identifier, an empty record
list and the error list `[e]`, having called the fetch and then `Register` once and
`Retrieve` not at all; `ServeHTTP` then answers with status 400 and a body with a
non-null error and an empty `requestID`, with no further call. -/
theorem C6_register_failure (server : ClairVulnServer σ P V E CV CF CE J) (w : σ)
    (req : Request) (name : String) (more : List String) (e : E)
    (hp : req.Query.lookup "platform" = some (name :: more))
    (hs : (translatePlatform server name).2 = true)
    (hid : req.Query.lookup "requestID" = none ∨ req.Query.lookup "requestID" = some [])
    (hreg : (registered server w (translatePlatform server name).1).1.2 = some e) :
    (∀ x : Exec σ P V E J, x.world = w →
      (__newJob server x (translatePlatform server name).1).1 =
        ("", Slice.of [], Slice.of [some e]) ∧
      (__newJob server x (translatePlatform server name).1).2.calls =
        x.calls ++ [Call.fetch (translatePlatform server name).1,
                    Call.register (jobOf server w (translatePlatform server name).1)]) ∧
    ∃ x : Exec σ P V E J, ServeHTTP server w req = some x ∧
      statusCode x.res = 400 ∧
      x.calls = [Call.fetch (translatePlatform server name).1,
                 Call.register (jobOf server w (translatePlatform server name).1)] ∧
      ∃ r, body x.res = [r] ∧ r.Error ≠ none ∧ r.RequestID = "" := by
  constructor
  · intro x hx
    subst hx
    have h := newJob_of_register_failed server x (translatePlatform server name).1 e hreg
    rw [h]
    exact ⟨rfl, rfl⟩
  · refine ⟨_, ServeHTTP_of_new_failed server w req name more e hp hs hid hreg, ?_⟩
    simp [statusCode_failure, body_failure]

/-- C6 at a new-job request served while no identifier can be generated. -/
theorem C6_register_failure_witness :
    (registered stub.server stub.worldExhausted
      (translatePlatform stub.server "debian 8").1).1.2
      = some "could not generate an identifier" ∧
    ((∀ x : Exec stub.World String String String stub.Job, x.world = stub.worldExhausted →
      (__newJob stub.server x (translatePlatform stub.server "debian 8").1).1 =
        ("", Slice.of [], Slice.of [some "could not generate an identifier"]) ∧
      (__newJob stub.server x (translatePlatform stub.server "debian 8").1).2.calls =
        x.calls ++ [Call.fetch (translatePlatform stub.server "debian 8").1,
                    Call.register (jobOf stub.server stub.worldExhausted
                      (translatePlatform stub.server "debian 8").1)]) ∧
    ∃ x : Exec stub.World String String String stub.Job,
      ServeHTTP stub.server stub.worldExhausted stub.fresh = some x ∧
      statusCode x.res = 400 ∧
      x.calls = [Call.fetch (translatePlatform stub.server "debian 8").1,
                 Call.register (jobOf stub.server stub.worldExhausted
                   (translatePlatform stub.server "debian 8").1)] ∧
      ∃ r, body x.res = [r] ∧ r.Error ≠ none ∧ r.RequestID = "") :=
  ⟨by decide,
   C6_register_failure stub.server stub.worldExhausted stub.fresh "debian 8" []
     "could not generate an identifier" (by decide) (by decide) (Or.inl (by decide))
     (by decide)⟩

/-- C8: a request without a `platform` parameter, or with an empty value list for it,
is answered with status 400 and the error "missing query parameter 'platform'",
whatever else the query holds (a `requestID` included), and no call is made on the
source or the job manager. -/
theorem C8_missing_platform (server : ClairVulnServer σ P V E CV CF CE J) (w : σ)
    (req : Request)
    (h : req.Query.lookup "platform" = none ∨ req.Query.lookup "platform" = some []) :
    ∃ x : Exec σ P V E J, ServeHTTP server w req = some x ∧
      statusCode x.res = 400 ∧
      body x.res = [{ Error := some "missing query parameter 'platform'",
                      RequestID := "", Finished := false,
                      Vulnerabilities := Slice.nil }] ∧
      x.calls = [] ∧ x.world = w := by
  refine ⟨_, ServeHTTP_of_no_platform server w req h, ?_⟩
  simp [statusCode_failure, body_failure]

/-- C8 at a request that carries only the identifier of the known job "x". -/
theorem C8_missing_platform_witness :
    (stub.server.Retrieve stub.worldDone "x").1.2.1.len = 0 ∧
    ∃ x : Exec stub.World String String String stub.Job,
      ServeHTTP stub.server stub.worldDone { Query := [("requestID", ["x"])] } = some x ∧
      statusCode x.res = 400 ∧
      body x.res = [{ Error := some "missing query parameter 'platform'",
                      RequestID := "", Finished := false,
                      Vulnerabilities := Slice.nil }] ∧
      x.calls = [] ∧ x.world = stub.worldDone :=
  ⟨by decide,
   C8_missing_platform stub.server stub.worldDone { Query := [("requestID", ["x"])] }
     (Or.inl (by decide))⟩

/-- C9: a request whose first `platform` value `name` is not a supported platform name
is answered with status 400 and the error "no such platform 'name'", the name inserted
as it is, whatever the later `platform` values and whatever else the query holds (a
`requestID` included), and no call is made on the source or the job manager. -/
theorem C9_unsupported_platform (server : ClairVulnServer σ P V E CV CF CE J) (w : σ)
    (req : Request) (name : String) (more : List String)
    (hp : req.Query.lookup "platform" = some (name :: more))
    (hs : (translatePlatform server name).2 = false) :
    ∃ x : Exec σ P V E J, ServeHTTP server w req = some x ∧
      statusCode x.res = 400 ∧
      body x.res = [{ Error := some ("no such platform '" ++ name ++ "'"),
                      RequestID := "", Finished := false,
                      Vulnerabilities := Slice.nil }] ∧
      x.calls = [] ∧ x.world = w := by
  refine ⟨_, ServeHTTP_of_unsupported server w req name more hp hs, ?_⟩
  simp [statusCode_failure, body_failure]

/-- C9 at a request for "debian 9" that also carries a later supported `platform`
value and the identifier of the known job "x". -/
theorem C9_unsupported_platform_witness :
    (stub.server.Retrieve stub.worldDone "x").1.2.1.len = 0 ∧
    ∃ x : Exec stub.World String String String stub.Job,
      ServeHTTP stub.server stub.worldDone
        { Query := [("platform", ["debian 9", "debian 8"]), ("requestID", ["x"])] }
        = some x ∧
      statusCode x.res = 400 ∧
      body x.res = [{ Error := some "no such platform 'debian 9'",
                      RequestID := "", Finished := false,
                      Vulnerabilities := Slice.nil }] ∧
      x.calls = [] ∧ x.world = stub.worldDone :=
  ⟨by decide,
   C9_unsupported_platform stub.server stub.worldDone
     { Query := [("platform", ["debian 9", "debian 8"]), ("requestID", ["x"])] }
     "debian 9" ["debian 8"] (by decide) (by decide)⟩

end servers

/-! ### The claim about `Package.Equals` -/

namespace pack

/-- C7: `p.Equals(q)` is true exactly when `p` and `q` have the same `Name` and the
same `Version`, that is when `p = q`; so `Equals` is reflexive, symmetric and
transitive. -/
theorem C7_Equals_iff_eq (p q r : Package) :
    (p.Equals q = true ↔ p.Name = q.Name ∧ p.Version = q.Version) ∧
    (p.Equals q = true ↔ p = q) ∧
    p.Equals p = true ∧
    p.Equals q = q.Equals p ∧
    (p.Equals q = true ∧ q.Equals r = true → p.Equals r = true) := by
  have key : ∀ a b : Package, a.Equals b = true ↔ a = b := by
    intro a b
    cases a
    cases b
    simp [Package.Equals]
  refine ⟨by simp [Package.Equals], key p q, (key p p).2 rfl, ?_, ?_⟩
  · by_cases h : p = q
    · subst h
      rfl
    · have h1 : p.Equals q = false := by
        simpa using fun hh => h ((key p q).1 hh)
      have h2 : q.Equals p = false := by
        simpa using fun hh => h ((key q p).1 hh).symm
      rw [h1, h2]
  · rintro ⟨h1, h2⟩
    exact (key p r).2 (((key p q).1 h1).trans ((key q r).1 h2))

end pack

end Patches
